import Mathlib

/-!
Shallow embedding of the debug-eligibility logic and the boards data store of
the Arduino IDE extension:

- `src/arduino-ide-extension/src/browser/contributions/debug.ts`
- `src/arduino-ide-extension/src/browser/boards/boards-data-store.ts`

TypeScript values of type `T | undefined` become `Option T`, a thrown `Error`
becomes the `Except.error` of its message, asynchronous callbacks become pure
functions, and the storage/localStorage services become explicit state that is
threaded through each operation.  JavaScript truthiness is modelled exactly:
for a `string | undefined` both `undefined` and the empty string are falsy.
-/

/-- A `Programmer` of the common protocol: an id, a human readable name and
the platform it belongs to. -/
structure Programmer where
  id : String
  name : String
  platform : String
deriving DecidableEq, Repr

/-- Modelled from the spec: `Programmer.equals` lives in
`../../common/protocol`, whose source file is not part of this excerpt; two
programmers are the same exactly when all of their fields agree. -/
def Programmer.equals (a b : Programmer) : Bool :=
  a.id == b.id && a.name == b.name && a.platform == b.platform

/-- One selectable value of a board config option. -/
structure ConfigValue where
  value : String
  label : String
  selected : Bool
deriving DecidableEq, Repr

/-- One board config option: a name, a label and its values. -/
structure ConfigOption where
  option : String
  label : String
  values : List ConfigValue
deriving DecidableEq, Repr

namespace BoardsDataStore

/-- `BoardsDataStore.Data` (boards-data-store.ts, lines 281-286): the per-board
configuration kept by the store. -/
structure Data where
  configOptions : List ConfigOption
  programmers : List Programmer
  selectedProgrammer : Option Programmer
  defaultProgrammerId : Option String
deriving DecidableEq, Repr

/-- `BoardsDataStore.Data.EMPTY` (boards-data-store.ts, lines 288-291). -/
def Data.EMPTY : Data := ⟨[], [], none, none⟩

end BoardsDataStore

/-- The board details answered by the boards service for an FQBN; the fields
follow `BoardDetails` of the common protocol as used by the store and by the
tests (the external `Tool` type of `requiredTools` is left as a string). -/
structure BoardDetails where
  fqbn : String
  requiredTools : List String
  configOptions : List ConfigOption
  programmers : List Programmer
  defaultProgrammerId : Option String
  VID : String
  PID : String
  buildProperties : List String
deriving DecidableEq, Repr

/-- A sketch, as far as the debug contribution looks at it. -/
structure Sketch where
  name : String
  uri : String
  mainFileUri : String
  additionalFileUris : List String
  otherSketchFileUris : List String
  rootFolderFileUris : List String
deriving DecidableEq, Repr

/-- The TypeScript union `CurrentSketch = Sketch | 'invalid'`. -/
inductive CurrentSketch where
  | invalid : CurrentSketch
  | sketch : Sketch → CurrentSketch
deriving DecidableEq, Repr

/-- Modelled from the spec: `CurrentSketch.isValid` of the sketches service
client, whose source file is not part of this excerpt.  Per the validation
pipeline description and the unit tests, the current sketch is valid exactly
when it is an actual sketch object — neither `undefined` nor the literal
invalid marker; the valid sketch is returned. -/
def CurrentSketch.isValid : Option CurrentSketch → Option Sketch
  | some (CurrentSketch.sketch s) => some s
  | _ => none

/-- A `BoardIdentifier`: a board name and an optional FQBN. -/
structure BoardIdentifier where
  name : String
  fqbn : Option String
deriving DecidableEq, Repr

/-- The parameter object handed to the `checkDebugEnabled` callback. -/
structure CheckDebugEnabledParams where
  fqbn : String
  programmer : String
  sketchUri : String
deriving DecidableEq, Repr

/-- Modelled from the spec: the `noSketchOpened` message constant imported
from `../../common/nls`, whose source file is not part of this excerpt. -/
def noSketchOpened : String := "No sketch opened"

/-- Modelled from the spec: the `noBoardSelected` message constant imported
from `../../common/nls`, whose source file is not part of this excerpt. -/
def noBoardSelected : String := "No board selected"

/-- `nls.localize` applied to a template with a single `{0}` placeholder: the
default English template with the placeholder substituted by the argument. -/
def localize1 (template arg : String) : String := template.replace "{0}" arg

/-- `sketchIsNotCompiled` (debug.ts, lines 422-428). -/
def sketchIsNotCompiled (sketchName : String) : String :=
  localize1 "Sketch \x27{0}\x27 must be verified before starting a debug session" sketchName

/-- `noPlatformInstalledFor` (debug.ts, lines 432-438). -/
def noPlatformInstalledFor (boardName : String) : String :=
  localize1 "Platform is not installed for \x27{0}\x27" boardName

/-- `debuggingNotSupported` (debug.ts, lines 442-448). -/
def debuggingNotSupported (boardName : String) : String :=
  localize1 "Debugging is not supported by \x27{0}\x27" boardName

/-- `noProgrammerSelectedFor` (debug.ts, lines 452-458). -/
def noProgrammerSelectedFor (boardName : String) : String :=
  localize1 "No programmer selected for \x27{0}\x27" boardName

/-- The inline template-literal error of `isDebugEnabled` (debug.ts,
lines 395-398). -/
def failedToAppendConfig (fqbn : String) : String :=
  "Failed to append boards config to the FQBN. Original FQBN was: " ++ fqbn

/-- A record of one callback invocation made by `isDebugEnabled`. -/
inductive CallEvent where
  | getDetailsCall (fqbn : String)
  | getDataCall (fqbn : String)
  | appendConfigToFqbnCall (fqbn : String)
  | checkDebugEnabledCall (params : CheckDebugEnabledParams)
  | isSketchNotVerifiedErrorCall
deriving DecidableEq, Repr

/-- The three combined fetches of `isDebugEnabled` (debug.ts, lines 387-391),
in argument order. -/
def fetchCalls (fqbn : String) : List CallEvent :=
  [CallEvent.getDetailsCall fqbn, CallEvent.getDataCall fqbn,
    CallEvent.appendConfigToFqbnCall fqbn]

/-- Shallow embedding of `isDebugEnabled` (debug.ts, lines 365-417).  The
result is the resolution or the message of the rejection, paired with the
trace of every callback invocation, in order.  A JavaScript falsy check on a
string (`!fqbn`, `!fqbnWithConfig`) is the disjunction of `undefined` and the
empty string, hence the extra `isEmpty` tests. -/
def isDebugEnabled (E : Type)
    (sketch : Option CurrentSketch)
    (board : Option BoardIdentifier)
    (getDetails : String → Option BoardDetails)
    (getData : String → BoardsDataStore.Data)
    (appendConfigToFqbn : String → Option String)
    (checkDebugEnabled : CheckDebugEnabledParams → Except E Unit)
    (isSketchNotVerifiedError : E → Sketch → Bool) :
    Except String Unit × List CallEvent :=
  match CurrentSketch.isValid sketch with
  | none => (Except.error noSketchOpened, [])
  | some sk =>
    match board with
    | none => (Except.error noBoardSelected, [])
    | some b =>
      match b.fqbn with
      | none => (Except.error (noPlatformInstalledFor b.name), [])
      | some f =>
        if f.isEmpty then
          (Except.error (noPlatformInstalledFor b.name), [])
        else
          match getDetails f with
          | none => (Except.error (noPlatformInstalledFor b.name), fetchCalls f)
          | some _ =>
            match appendConfigToFqbn f with
            | none => (Except.error (failedToAppendConfig f), fetchCalls f)
            | some fc =>
              if fc.isEmpty then
                (Except.error (failedToAppendConfig f), fetchCalls f)
              else
                match (getData f).selectedProgrammer with
                | none =>
                  (Except.error (noProgrammerSelectedFor b.name), fetchCalls f)
                | some prog =>
                  match checkDebugEnabled ⟨fc, prog.id, sk.uri⟩ with
                  | Except.ok _ =>
                    (Except.ok (),
                      fetchCalls f ++
                        [CallEvent.checkDebugEnabledCall ⟨fc, prog.id, sk.uri⟩])
                  | Except.error e =>
                    if isSketchNotVerifiedError e sk then
                      (Except.error (sketchIsNotCompiled sk.name),
                        fetchCalls f ++
                          [CallEvent.checkDebugEnabledCall ⟨fc, prog.id, sk.uri⟩,
                            CallEvent.isSketchNotVerifiedErrorCall])
                    else
                      (Except.error (debuggingNotSupported b.name),
                        fetchCalls f ++
                          [CallEvent.checkDebugEnabledCall ⟨fc, prog.id, sk.uri⟩,
                            CallEvent.isSketchNotVerifiedErrorCall])

/-- A raw value held by the generic key-value storage service: either a value
that satisfies the `BoardsDataStore.Data.is` type guard — extensionally a
well-formed `Data` record — or any other value, which fails the guard. -/
inductive StoredValue where
  | ofData (data : BoardsDataStore.Data)
  | malformed
deriving DecidableEq, Repr

/-- The key-value storage service as the map it maintains; later writes
shadow earlier ones. -/
abbrev Storage := List (String × StoredValue)

/-- Look up a key in the storage service. -/
def Storage.get (st : Storage) (key : String) : Option StoredValue :=
  (st.find? (fun e => e.1 == key)).map (fun e => e.2)

/-- Write a key in the storage service. -/
def Storage.set (st : Storage) (key : String) (v : StoredValue) : Storage :=
  (key, v) :: st

namespace BoardsDataStore

/-- `BoardsDataStore.Data.is` (boards-data-store.ts, lines 293-304) applied to
the possibly missing raw value read from storage, combined with the cast the
type guard licenses: yields the record exactly when the guard accepts. -/
def Data.is : Option StoredValue → Option Data
  | some (StoredValue.ofData d) => some d
  | _ => none

/-- `BoardsDataStore.getStorageKey` (boards-data-store.ts, lines 248-250). -/
def getStorageKey (fqbn : String) : String := ".arduinoIDE-configOptions-" ++ fqbn

end BoardsDataStore

/-- `findDefaultProgrammer` (boards-data-store.ts, lines 317-329), at the
string-or-undefined overload used by `createDataStoreEntry`; the falsy check
on the id also rejects the empty string. -/
def findDefaultProgrammer (programmers : List Programmer)
    (defaultProgrammerId : Option String) : Option Programmer :=
  match defaultProgrammerId with
  | none => none
  | some i => if i.isEmpty then none else programmers.find? (fun p => p.id == i)

/-- `createDataStoreEntry` (boards-data-store.ts, lines 330-345): the entry
built from freshly loaded board details; the conditional object spreads make
an absent field out of a falsy selected programmer or default programmer id. -/
def createDataStoreEntry (details : BoardDetails) : BoardsDataStore.Data :=
  ⟨details.configOptions, details.programmers,
    findDefaultProgrammer details.programmers details.defaultProgrammerId,
    match details.defaultProgrammerId with
    | none => none
    | some i => if i.isEmpty then none else some i⟩

namespace BoardsDataStore

/-- Shallow embedding of `BoardsDataStore.getData` (boards-data-store.ts,
lines 167-188): the data answered for the FQBN, paired with the storage state
after the call.  The board details service call wrapped by `loadBoardDetails`
(lines 252-273) is the `loadBoardDetails` function parameter. -/
def getData (loadBoardDetails : String → Option BoardDetails)
    (st : Storage) (fqbn : Option String) : Data × Storage :=
  match fqbn with
  | none => (Data.EMPTY, st)
  | some f =>
    if f.isEmpty then (Data.EMPTY, st)
    else
      match Data.is (st.get (getStorageKey f)) with
      | some storedData => (storedData, st)
      | none =>
        match loadBoardDetails f with
        | none => (Data.EMPTY, st)
        | some boardDetails =>
          let data := createDataStoreEntry boardDetails
          (data, st.set (getStorageKey f) (StoredValue.ofData data))

/-- `BoardsDataStore.setData` (boards-data-store.ts, lines 242-246). -/
def setData (st : Storage) (fqbn : String) (data : Data) : Storage :=
  st.set (getStorageKey fqbn) (StoredValue.ofData data)

/-- Shallow embedding of `BoardsDataStore.appendConfigToFqbn`
(boards-data-store.ts, lines 157-165); the external `ConfigOption.decorate`
helper of the common protocol is passed in as a function. -/
def appendConfigToFqbn (decorate : String → List ConfigOption → String)
    (loadBoardDetails : String → Option BoardDetails)
    (st : Storage) (fqbn : Option String) : Option String × Storage :=
  match fqbn with
  | none => (none, st)
  | some f =>
    if f.isEmpty then (none, st)
    else
      let r := getData loadBoardDetails st (some f)
      (some (decorate f r.1.configOptions), r.2)

end BoardsDataStore

/-- A change event payload fired by the store for one FQBN. -/
structure BoardsDataStoreChange where
  fqbn : String
  data : BoardsDataStore.Data
deriving DecidableEq, Repr

namespace BoardsDataStore

/-- Shallow embedding of `BoardsDataStore.selectProgrammer`
(boards-data-store.ts, lines 190-207): the boolean result, the storage state
after the call and the list of fired change events. -/
def selectProgrammer (loadBoardDetails : String → Option BoardDetails)
    (st : Storage) (fqbn : String) (selectedProgrammer : Programmer) :
    Bool × Storage × List BoardsDataStoreChange :=
  let r := getData loadBoardDetails st (some fqbn)
  let storedData := r.1
  if (storedData.programmers.find?
      (fun p => Programmer.equals selectedProgrammer p)).isSome then
    let data : Data := ⟨storedData.configOptions, storedData.programmers,
      some selectedProgrammer, storedData.defaultProgrammerId⟩
    (true, setData r.2 fqbn data, [⟨fqbn, data⟩])
  else
    (false, r.2, [])

end BoardsDataStore

/-- The `for` loop of `selectConfigOption` (boards-data-store.ts,
lines 224-233) over the values of the found config option: selects exactly
the values equal to `selectedValue`, deselects every other one, and reports
whether any value matched. -/
def updateConfigValues (selectedValue : String) (values : List ConfigValue) :
    List ConfigValue × Bool :=
  (values.map (fun v =>
      if v.value == selectedValue then ⟨v.value, v.label, true⟩
      else ⟨v.value, v.label, false⟩),
    values.any (fun v => v.value == selectedValue))

/-- `configOptions.find` (boards-data-store.ts, line 220) followed by the
in-place mutation of the found option: replaces the first option with the
given name by its updated copy, or answers `none` when there is none; the
boolean is the `updated` flag of the loop. -/
def updateFirstConfigOption (option selectedValue : String) :
    List ConfigOption → Option (List ConfigOption × Bool)
  | [] => none
  | c :: rest =>
    if c.option == option then
      some (⟨c.option, c.label, (updateConfigValues selectedValue c.values).1⟩ :: rest,
        (updateConfigValues selectedValue c.values).2)
    else
      (updateFirstConfigOption option selectedValue rest).map
        (fun p => (c :: p.1, p.2))

namespace BoardsDataStore

/-- Shallow embedding of `BoardsDataStore.selectConfigOption`
(boards-data-store.ts, lines 209-240): the boolean result, the storage state
after the call and the list of fired change events. -/
def selectConfigOption (loadBoardDetails : String → Option BoardDetails)
    (st : Storage) (fqbn option selectedValue : String) :
    Bool × Storage × List BoardsDataStoreChange :=
  let r := getData loadBoardDetails st (some fqbn)
  match updateFirstConfigOption option selectedValue r.1.configOptions with
  | none => (false, r.2, [])
  | some (newOptions, updated) =>
    if updated then
      let data : Data := ⟨newOptions, r.1.programmers,
        r.1.selectedProgrammer, r.1.defaultProgrammerId⟩
      (true, setData r.2 fqbn data, [⟨fqbn, data⟩])
    else
      (false, r.2, [])

end BoardsDataStore

/-- `COMPILE_FOR_DEBUG_KEY` (debug.ts, line 37). -/
def COMPILE_FOR_DEBUG_KEY : String := "arduino-compile-for-debug"

/-- `window.localStorage` as the map from keys to stored strings. -/
abbrev LocalStorage := String → Option String

/-- The `Debug.compileForDebug` getter (debug.ts, lines 274-277). -/
def compileForDebug (ls : LocalStorage) : Bool :=
  ls COMPILE_FOR_DEBUG_KEY == some "true"

/-- `Debug.toggleCompileForDebug` (debug.ts, lines 279-284): stores the string
form of the negated current state. -/
def toggleCompileForDebug (ls : LocalStorage) : LocalStorage :=
  fun key =>
    if key == COMPILE_FOR_DEBUG_KEY then some (toString (!compileForDebug ls))
    else ls key

/-! Concrete fixtures, mirroring the unit test data of
`src/arduino-ide-extension/src/test/browser/debug.test.ts`. -/

/-- The programmer `p1` of the unit tests. -/
def p1 : Programmer := ⟨"p1", "P1", "The platform"⟩

/-- The programmer `p2` of the unit tests. -/
def p2 : Programmer := ⟨"p2", "P2", "The platform"⟩

/-- A programmer that is not among the fixtures. -/
def p3 : Programmer := ⟨"p3", "P3", "The platform"⟩

/-- The sketch of the unit tests. -/
def sketch0 : Sketch :=
  ⟨"My_Sketch", "file:///path/to/mySketch/",
    "file:///path/to/mySketch/mySketch.in", [], [], []⟩

/-- The board of the unit tests. -/
def board0 : BoardIdentifier := ⟨"ABC", some "a:b:c"⟩

/-- The stored data of the unit tests. -/
def data0 : BoardsDataStore.Data := ⟨[], [p1, p2], some p1, some "p1"⟩

/-- The board details of the unit tests. -/
def details0 : BoardDetails :=
  ⟨"a:b:c", [], [], [p1, p2], some "p1", "0", "0", []⟩

example :
    isDebugEnabled Unit (some (CurrentSketch.sketch sketch0)) (some board0)
      (fun _ => some details0) (fun _ => data0) (fun f => some f)
      (fun _ => Except.ok ()) (fun _ _ => false) =
    (Except.ok (),
      fetchCalls "a:b:c" ++
        [CallEvent.checkDebugEnabledCall ⟨"a:b:c", "p1", sketch0.uri⟩]) := by
  rfl

example :
    (isDebugEnabled Unit (some CurrentSketch.invalid) (some board0)
      (fun _ => some details0) (fun _ => data0) (fun f => some f)
      (fun _ => Except.ok ()) (fun _ _ => false)).2 = [] := by
  rfl

/-- Claim C10: `Debug.compileForDebug` is `true` exactly when the value stored
under the `arduino-compile-for-debug` key is the string `true`, and
`toggleCompileForDebug` negates it, so two consecutive calls restore the
original value of the observable state. -/
theorem compileForDebug_toggle_involution (ls : LocalStorage) :
    (compileForDebug ls = true ↔ ls COMPILE_FOR_DEBUG_KEY = some "true") ∧
    compileForDebug (toggleCompileForDebug ls) = !compileForDebug ls ∧
    compileForDebug (toggleCompileForDebug (toggleCompileForDebug ls)) =
      compileForDebug ls := by
  have step : ∀ m : LocalStorage,
      compileForDebug (toggleCompileForDebug m) = !compileForDebug m := by
    intro m
    cases hb : compileForDebug m
    · simp only [compileForDebug, toggleCompileForDebug] at hb ⊢
      simp [hb]
      rfl
    · simp only [compileForDebug, toggleCompileForDebug] at hb ⊢
      simp [hb]
      decide
  refine ⟨by simp [compileForDebug, beq_iff_eq], step ls, ?_⟩
  rw [step, step, Bool.not_not]

/-- Claim C10 witness: a concrete local storage holding the string `true`. -/
theorem compileForDebug_toggle_involution_witness :
    compileForDebug
        (toggleCompileForDebug (fun k =>
          if k == COMPILE_FOR_DEBUG_KEY then some "true" else none)) = false := by
  have h := compileForDebug_toggle_involution
    (fun k => if k == COMPILE_FOR_DEBUG_KEY then some "true" else none)
  rw [h.2.1]
  rfl

/-- Claim C1: `isDebugEnabled` evaluates its validation checks in a fixed
order — current-sketch validity, board selection, truthiness of the board
FQBN, then, after the three combined fetches, presence of board details,
truthiness of the decorated FQBN and presence of a selected programmer — and
rejects at the first failing check without invoking any callback of a later
stage: no callback at all runs when the sketch is invalid, no board is
selected or the FQBN is missing, and only the three fetch callbacks run when
a fetch-stage check fails, so `checkDebugEnabled` and
`isSketchNotVerifiedError` are never invoked there. -/
theorem isDebugEnabled_ordered_short_circuit (E : Type)
    (sketch : Option CurrentSketch) (board : Option BoardIdentifier)
    (getDetails : String → Option BoardDetails)
    (getData : String → BoardsDataStore.Data)
    (appendConfigToFqbn : String → Option String)
    (checkDebugEnabled : CheckDebugEnabledParams → Except E Unit)
    (isSketchNotVerifiedError : E → Sketch → Bool) :
    (CurrentSketch.isValid sketch = none →
      isDebugEnabled E sketch board getDetails getData appendConfigToFqbn
          checkDebugEnabled isSketchNotVerifiedError =
        (Except.error noSketchOpened, [])) ∧
    (∀ sk, CurrentSketch.isValid sketch = some sk → board = none →
      isDebugEnabled E sketch board getDetails getData appendConfigToFqbn
          checkDebugEnabled isSketchNotVerifiedError =
        (Except.error noBoardSelected, [])) ∧
    (∀ sk b, CurrentSketch.isValid sketch = some sk → board = some b →
      b.fqbn = none →
      isDebugEnabled E sketch board getDetails getData appendConfigToFqbn
          checkDebugEnabled isSketchNotVerifiedError =
        (Except.error (noPlatformInstalledFor b.name), [])) ∧
    (∀ sk b f, CurrentSketch.isValid sketch = some sk → board = some b →
      b.fqbn = some f → f.isEmpty = true →
      isDebugEnabled E sketch board getDetails getData appendConfigToFqbn
          checkDebugEnabled isSketchNotVerifiedError =
        (Except.error (noPlatformInstalledFor b.name), [])) ∧
    (∀ sk b f, CurrentSketch.isValid sketch = some sk → board = some b →
      b.fqbn = some f → f.isEmpty = false → getDetails f = none →
      isDebugEnabled E sketch board getDetails getData appendConfigToFqbn
          checkDebugEnabled isSketchNotVerifiedError =
        (Except.error (noPlatformInstalledFor b.name), fetchCalls f)) ∧
    (∀ sk b f d, CurrentSketch.isValid sketch = some sk → board = some b →
      b.fqbn = some f → f.isEmpty = false → getDetails f = some d →
      appendConfigToFqbn f = none →
      isDebugEnabled E sketch board getDetails getData appendConfigToFqbn
          checkDebugEnabled isSketchNotVerifiedError =
        (Except.error (failedToAppendConfig f), fetchCalls f)) ∧
    (∀ sk b f d fc, CurrentSketch.isValid sketch = some sk → board = some b →
      b.fqbn = some f → f.isEmpty = false → getDetails f = some d →
      appendConfigToFqbn f = some fc → fc.isEmpty = true →
      isDebugEnabled E sketch board getDetails getData appendConfigToFqbn
          checkDebugEnabled isSketchNotVerifiedError =
        (Except.error (failedToAppendConfig f), fetchCalls f)) ∧
    (∀ sk b f d fc, CurrentSketch.isValid sketch = some sk → board = some b →
      b.fqbn = some f → f.isEmpty = false → getDetails f = some d →
      appendConfigToFqbn f = some fc → fc.isEmpty = false →
      (getData f).selectedProgrammer = none →
      isDebugEnabled E sketch board getDetails getData appendConfigToFqbn
          checkDebugEnabled isSketchNotVerifiedError =
        (Except.error (noProgrammerSelectedFor b.name), fetchCalls f)) := by
  refine ⟨?_, ?_, ?_, ?_, ?_, ?_, ?_, ?_⟩
  · intro h
    simp [isDebugEnabled, h]
  · intro sk hval hb
    simp [isDebugEnabled, hval, hb]
  · intro sk b hval hb hf
    simp [isDebugEnabled, hval, hb, hf]
  · intro sk b f hval hb hf hfe
    simp [isDebugEnabled, hval, hb, hf, hfe]
  · intro sk b f hval hb hf hfe hd
    simp [isDebugEnabled, hval, hb, hf, hfe, hd]
  · intro sk b f d hval hb hf hfe hd hacf
    simp [isDebugEnabled, hval, hb, hf, hfe, hd, hacf]
  · intro sk b f d fc hval hb hf hfe hd hacf hfce
    simp [isDebugEnabled, hval, hb, hf, hfe, hd, hacf, hfce]
  · intro sk b f d fc hval hb hf hfe hd hacf hfce hsp
    simp [isDebugEnabled, hval, hb, hf, hfe, hd, hacf, hfce, hsp]

/-- Claim C1 witness: with an invalid current sketch the evaluation rejects
with the no-sketch message and the callback trace is empty. -/
theorem isDebugEnabled_ordered_short_circuit_witness :
    isDebugEnabled Unit (some CurrentSketch.invalid) (some board0)
      (fun _ => some details0) (fun _ => data0) (fun f => some f)
      (fun _ => Except.ok ()) (fun _ _ => false) =
    (Except.error noSketchOpened, []) :=
  (isDebugEnabled_ordered_short_circuit Unit (some CurrentSketch.invalid)
    (some board0) (fun _ => some details0) (fun _ => data0) (fun f => some f)
    (fun _ => Except.ok ()) (fun _ _ => false)).1 rfl

/-- Claim C2: `isDebugEnabled` maps each failure to its specific message:
`noSketchOpened` for an undefined or invalid sketch, `noBoardSelected` for an
undefined board, `noPlatformInstalledFor` for a missing FQBN or missing board
details, the failed-to-append message for a missing decorated FQBN,
`noProgrammerSelectedFor` for missing programmer data, and, when
`checkDebugEnabled` throws, `sketchIsNotCompiled` or `debuggingNotSupported`
according to the `isSketchNotVerifiedError` classification. -/
theorem isDebugEnabled_error_messages (E : Type)
    (sketch : Option CurrentSketch) (board : Option BoardIdentifier)
    (getDetails : String → Option BoardDetails)
    (getData : String → BoardsDataStore.Data)
    (appendConfigToFqbn : String → Option String)
    (checkDebugEnabled : CheckDebugEnabledParams → Except E Unit)
    (isSketchNotVerifiedError : E → Sketch → Bool) :
    (sketch = none ∨ sketch = some CurrentSketch.invalid →
      (isDebugEnabled E sketch board getDetails getData appendConfigToFqbn
          checkDebugEnabled isSketchNotVerifiedError).1 =
        Except.error noSketchOpened) ∧
    (∀ sk, CurrentSketch.isValid sketch = some sk → board = none →
      (isDebugEnabled E sketch board getDetails getData appendConfigToFqbn
          checkDebugEnabled isSketchNotVerifiedError).1 =
        Except.error noBoardSelected) ∧
    (∀ sk b, CurrentSketch.isValid sketch = some sk → board = some b →
      b.fqbn = none →
      (isDebugEnabled E sketch board getDetails getData appendConfigToFqbn
          checkDebugEnabled isSketchNotVerifiedError).1 =
        Except.error (noPlatformInstalledFor b.name)) ∧
    (∀ sk b f, CurrentSketch.isValid sketch = some sk → board = some b →
      b.fqbn = some f → f.isEmpty = false → getDetails f = none →
      (isDebugEnabled E sketch board getDetails getData appendConfigToFqbn
          checkDebugEnabled isSketchNotVerifiedError).1 =
        Except.error (noPlatformInstalledFor b.name)) ∧
    (∀ sk b f d, CurrentSketch.isValid sketch = some sk → board = some b →
      b.fqbn = some f → f.isEmpty = false → getDetails f = some d →
      appendConfigToFqbn f = none →
      (isDebugEnabled E sketch board getDetails getData appendConfigToFqbn
          checkDebugEnabled isSketchNotVerifiedError).1 =
        Except.error (failedToAppendConfig f)) ∧
    (∀ sk b f d fc, CurrentSketch.isValid sketch = some sk → board = some b →
      b.fqbn = some f → f.isEmpty = false → getDetails f = some d →
      appendConfigToFqbn f = some fc → fc.isEmpty = false →
      (getData f).selectedProgrammer = none →
      (isDebugEnabled E sketch board getDetails getData appendConfigToFqbn
          checkDebugEnabled isSketchNotVerifiedError).1 =
        Except.error (noProgrammerSelectedFor b.name)) ∧
    (∀ sk b f d fc p e, CurrentSketch.isValid sketch = some sk →
      board = some b → b.fqbn = some f → f.isEmpty = false →
      getDetails f = some d → appendConfigToFqbn f = some fc →
      fc.isEmpty = false → (getData f).selectedProgrammer = some p →
      checkDebugEnabled ⟨fc, p.id, sk.uri⟩ = Except.error e →
      isSketchNotVerifiedError e sk = true →
      (isDebugEnabled E sketch board getDetails getData appendConfigToFqbn
          checkDebugEnabled isSketchNotVerifiedError).1 =
        Except.error (sketchIsNotCompiled sk.name)) ∧
    (∀ sk b f d fc p e, CurrentSketch.isValid sketch = some sk →
      board = some b → b.fqbn = some f → f.isEmpty = false →
      getDetails f = some d → appendConfigToFqbn f = some fc →
      fc.isEmpty = false → (getData f).selectedProgrammer = some p →
      checkDebugEnabled ⟨fc, p.id, sk.uri⟩ = Except.error e →
      isSketchNotVerifiedError e sk = false →
      (isDebugEnabled E sketch board getDetails getData appendConfigToFqbn
          checkDebugEnabled isSketchNotVerifiedError).1 =
        Except.error (debuggingNotSupported b.name)) := by
  refine ⟨?_, ?_, ?_, ?_, ?_, ?_, ?_, ?_⟩
  · rintro (h | h) <;> subst h <;> rfl
  · intro sk hval hb
    simp [isDebugEnabled, hval, hb]
  · intro sk b hval hb hf
    simp [isDebugEnabled, hval, hb, hf]
  · intro sk b f hval hb hf hfe hd
    simp [isDebugEnabled, hval, hb, hf, hfe, hd]
  · intro sk b f d hval hb hf hfe hd hacf
    simp [isDebugEnabled, hval, hb, hf, hfe, hd, hacf]
  · intro sk b f d fc hval hb hf hfe hd hacf hfce hsp
    simp [isDebugEnabled, hval, hb, hf, hfe, hd, hacf, hfce, hsp]
  · intro sk b f d fc p e hval hb hf hfe hd hacf hfce hsp hcde hnv
    simp [isDebugEnabled, hval, hb, hf, hfe, hd, hacf, hfce, hsp, hcde, hnv]
  · intro sk b f d fc p e hval hb hf hfe hd hacf hfce hsp hcde hnv
    simp [isDebugEnabled, hval, hb, hf, hfe, hd, hacf, hfce, hsp, hcde, hnv]

/-- Claim C2 witness: a `checkDebugEnabled` failure classified as a
not-verified-sketch error yields the sketch-is-not-compiled message. -/
theorem isDebugEnabled_error_messages_witness :
    (isDebugEnabled Unit (some (CurrentSketch.sketch sketch0)) (some board0)
        (fun _ => some details0) (fun _ => data0) (fun f => some f)
        (fun _ => Except.error ()) (fun _ _ => true)).1 =
      Except.error (sketchIsNotCompiled sketch0.name) :=
  (isDebugEnabled_error_messages Unit (some (CurrentSketch.sketch sketch0))
    (some board0) (fun _ => some details0) (fun _ => data0) (fun f => some f)
    (fun _ => Except.error ()) (fun _ _ => true)).2.2.2.2.2.2.1 sketch0 board0
    "a:b:c" details0 "a:b:c" p1 () rfl rfl rfl rfl rfl rfl rfl rfl rfl rfl

/-- Claim C3 (amended): `isDebugEnabled` resolves if and only if the sketch is
valid, a board with a defined, nonempty FQBN is selected, `getDetails` yields
details, `appendConfigToFqbn` yields a nonempty decorated FQBN, the data has a
selected programmer and `checkDebugEnabled` resolves; on the successful path
`checkDebugEnabled` is invoked exactly once — the full trace is the three
fetches followed by one `checkDebugEnabled` call — with the decorated FQBN,
the selected programmer id and the sketch URI as parameters. -/
theorem isDebugEnabled_resolves_spec (E : Type)
    (sketch : Option CurrentSketch) (board : Option BoardIdentifier)
    (getDetails : String → Option BoardDetails)
    (getData : String → BoardsDataStore.Data)
    (appendConfigToFqbn : String → Option String)
    (checkDebugEnabled : CheckDebugEnabledParams → Except E Unit)
    (isSketchNotVerifiedError : E → Sketch → Bool) :
    ((isDebugEnabled E sketch board getDetails getData appendConfigToFqbn
        checkDebugEnabled isSketchNotVerifiedError).1 = Except.ok () ↔
      ∃ sk b f d fc p,
        CurrentSketch.isValid sketch = some sk ∧ board = some b ∧
        b.fqbn = some f ∧ f.isEmpty = false ∧ getDetails f = some d ∧
        appendConfigToFqbn f = some fc ∧ fc.isEmpty = false ∧
        (getData f).selectedProgrammer = some p ∧
        checkDebugEnabled ⟨fc, p.id, sk.uri⟩ = Except.ok ()) ∧
    (∀ sk b f d fc p, CurrentSketch.isValid sketch = some sk →
      board = some b → b.fqbn = some f → f.isEmpty = false →
      getDetails f = some d → appendConfigToFqbn f = some fc →
      fc.isEmpty = false → (getData f).selectedProgrammer = some p →
      checkDebugEnabled ⟨fc, p.id, sk.uri⟩ = Except.ok () →
      isDebugEnabled E sketch board getDetails getData appendConfigToFqbn
          checkDebugEnabled isSketchNotVerifiedError =
        (Except.ok (),
          fetchCalls f ++
            [CallEvent.checkDebugEnabledCall ⟨fc, p.id, sk.uri⟩])) := by
  constructor
  · constructor
    · intro h
      cases hval : CurrentSketch.isValid sketch with
      | none => simp [isDebugEnabled, hval] at h
      | some sk =>
        cases hb : board with
        | none => simp [isDebugEnabled, hval, hb] at h
        | some b =>
          cases hf : b.fqbn with
          | none => simp [isDebugEnabled, hval, hb, hf] at h
          | some f =>
            cases hfe : f.isEmpty with
            | true => simp [isDebugEnabled, hval, hb, hf, hfe] at h
            | false =>
              cases hd : getDetails f with
              | none => simp [isDebugEnabled, hval, hb, hf, hfe, hd] at h
              | some d =>
                cases hacf : appendConfigToFqbn f with
                | none =>
                  simp [isDebugEnabled, hval, hb, hf, hfe, hd, hacf] at h
                | some fc =>
                  cases hfce : fc.isEmpty with
                  | true =>
                    simp [isDebugEnabled, hval, hb, hf, hfe, hd, hacf,
                      hfce] at h
                  | false =>
                    cases hsp : (getData f).selectedProgrammer with
                    | none =>
                      simp [isDebugEnabled, hval, hb, hf, hfe, hd, hacf,
                        hfce, hsp] at h
                    | some p =>
                      cases hcde : checkDebugEnabled ⟨fc, p.id, sk.uri⟩ with
                      | ok u =>
                        cases u
                        exact ⟨sk, b, f, d, fc, p, rfl, rfl, hf, hfe, hd,
                          hacf, hfce, hsp, hcde⟩
                      | error e =>
                        cases hnv : isSketchNotVerifiedError e sk <;>
                          simp [isDebugEnabled, hval, hb, hf, hfe, hd, hacf,
                            hfce, hsp, hcde, hnv] at h
    · rintro ⟨sk, b, f, d, fc, p, hval, hb, hf, hfe, hd, hacf, hfce, hsp, hcde⟩
      simp [isDebugEnabled, hval, hb, hf, hfe, hd, hacf, hfce, hsp, hcde]
  · intro sk b f d fc p hval hb hf hfe hd hacf hfce hsp hcde
    simp [isDebugEnabled, hval, hb, hf, hfe, hd, hacf, hfce, hsp, hcde]

/-- Claim C3 witness: the fixture success scenario of the unit tests resolves
with exactly one `checkDebugEnabled` call carrying the decorated FQBN, the
selected programmer id and the sketch URI. -/
theorem isDebugEnabled_resolves_spec_witness :
    isDebugEnabled Unit (some (CurrentSketch.sketch sketch0)) (some board0)
      (fun _ => some details0) (fun _ => data0) (fun f => some f)
      (fun _ => Except.ok ()) (fun _ _ => false) =
    (Except.ok (),
      fetchCalls "a:b:c" ++
        [CallEvent.checkDebugEnabledCall ⟨"a:b:c", p1.id, sketch0.uri⟩]) :=
  (isDebugEnabled_resolves_spec Unit (some (CurrentSketch.sketch sketch0))
    (some board0) (fun _ => some details0) (fun _ => data0) (fun f => some f)
    (fun _ => Except.ok ()) (fun _ _ => false)).2 sketch0 board0 "a:b:c"
    details0 "a:b:c" p1 rfl rfl rfl rfl rfl rfl rfl rfl rfl

/-- Claim C3 counterexample: with the board carrying the defined but empty
FQBN every condition of the claim as stated holds — the sketch is valid, a
board with a defined `fqbn` is selected, `getDetails` returns details,
`appendConfigToFqbn` returns a decorated FQBN string, the data has a selected
programmer, and `checkDebugEnabled` resolves — yet `isDebugEnabled` rejects,
because the JavaScript falsy check on the FQBN also rejects the empty
string. -/
theorem isDebugEnabled_resolves_spec_cex :
    ¬ (((isDebugEnabled Unit (some (CurrentSketch.sketch sketch0))
          (some ⟨"ABC", some ""⟩) (fun _ => some details0) (fun _ => data0)
          (fun _ => some "a:b:c") (fun _ => Except.ok ())
          (fun _ _ => false)).1 = Except.ok ()) ↔
        ∃ sk b f d fc p,
          CurrentSketch.isValid (some (CurrentSketch.sketch sketch0)) =
            some sk ∧
          (some (⟨"ABC", some ""⟩ : BoardIdentifier)) = some b ∧
          b.fqbn = some f ∧
          (fun (_ : String) => some details0) f = some d ∧
          (fun (_ : String) => some "a:b:c") f = some fc ∧
          ((fun (_ : String) => data0) f).selectedProgrammer = some p ∧
          (fun (_ : CheckDebugEnabledParams) =>
            (Except.ok () : Except Unit Unit)) ⟨fc, p.id, sk.uri⟩ =
              Except.ok ()) := by
  intro hiff
  have hr := hiff.2
    ⟨sketch0, ⟨"ABC", some ""⟩, "", details0, "a:b:c", p1,
      rfl, rfl, rfl, rfl, rfl, rfl, rfl⟩
  have hv : (isDebugEnabled Unit (some (CurrentSketch.sketch sketch0))
      (some ⟨"ABC", some ""⟩) (fun _ => some details0) (fun _ => data0)
      (fun _ => some "a:b:c") (fun _ => Except.ok ())
      (fun _ _ => false)).1 = Except.error (noPlatformInstalledFor "ABC") :=
    rfl
  rw [hv] at hr
  exact Except.noConfusion hr

/-- Claim C4 (amended): `getData` is a cache over the storage service: for a
defined, nonempty FQBN it answers a stored value accepted by the type guard
as is — for every `loadBoardDetails`, hence without loading board details —
and otherwise loads the details, writes the freshly created entry under the
same key and returns it; it answers `EMPTY`, leaving the storage untouched,
when the FQBN is undefined or empty or the details cannot be loaded. -/
theorem getData_cache_spec
    (loadBoardDetails : String → Option BoardDetails) (st : Storage) :
    (BoardsDataStore.getData loadBoardDetails st none =
      (BoardsDataStore.Data.EMPTY, st)) ∧
    (∀ f, f.isEmpty = true →
      BoardsDataStore.getData loadBoardDetails st (some f) =
        (BoardsDataStore.Data.EMPTY, st)) ∧
    (∀ f d, f.isEmpty = false →
      BoardsDataStore.Data.is
          (st.get (BoardsDataStore.getStorageKey f)) = some d →
      BoardsDataStore.getData loadBoardDetails st (some f) = (d, st)) ∧
    (∀ f, f.isEmpty = false →
      BoardsDataStore.Data.is
          (st.get (BoardsDataStore.getStorageKey f)) = none →
      loadBoardDetails f = none →
      BoardsDataStore.getData loadBoardDetails st (some f) =
        (BoardsDataStore.Data.EMPTY, st)) ∧
    (∀ f details, f.isEmpty = false →
      BoardsDataStore.Data.is
          (st.get (BoardsDataStore.getStorageKey f)) = none →
      loadBoardDetails f = some details →
      BoardsDataStore.getData loadBoardDetails st (some f) =
        (createDataStoreEntry details,
          st.set (BoardsDataStore.getStorageKey f)
            (StoredValue.ofData (createDataStoreEntry details))) ∧
      (st.set (BoardsDataStore.getStorageKey f)
          (StoredValue.ofData (createDataStoreEntry details))).get
            (BoardsDataStore.getStorageKey f) =
        some (StoredValue.ofData (createDataStoreEntry details))) := by
  refine ⟨rfl, ?_, ?_, ?_, ?_⟩
  · intro f hfe
    simp [BoardsDataStore.getData, hfe]
  · intro f d hfe hguard
    simp [BoardsDataStore.getData, hfe, hguard]
  · intro f hfe hguard hload
    simp [BoardsDataStore.getData, hfe, hguard, hload]
  · intro f details hfe hguard hload
    constructor
    · simp [BoardsDataStore.getData, hfe, hguard, hload]
    · simp [Storage.get, Storage.set, List.find?]

/-- Claim C4 witness: a cache miss on an empty storage loads the fixture
details, persists the created entry under the storage key of the FQBN and
returns that entry. -/
theorem getData_cache_spec_witness :
    BoardsDataStore.getData (fun _ => some details0) [] (some "a:b:c") =
      (createDataStoreEntry details0,
        Storage.set [] (BoardsDataStore.getStorageKey "a:b:c")
          (StoredValue.ofData (createDataStoreEntry details0))) :=
  ((getData_cache_spec (fun _ => some details0) []).2.2.2.2 "a:b:c" details0
    rfl rfl rfl).1

/-- Claim C4 counterexample: the FQBN that is the defined but empty string.
The storage holds a value under its storage key that satisfies the type
guard, yet `getData` answers `EMPTY` rather than the stored value, because
the JavaScript falsy check `!fqbn` also rejects the empty string. -/
theorem getData_cache_spec_cex :
    BoardsDataStore.Data.is
        (Storage.get [(".arduinoIDE-configOptions-", StoredValue.ofData data0)]
          (BoardsDataStore.getStorageKey "")) = some data0 ∧
    BoardsDataStore.getData (fun _ => some details0)
        [(".arduinoIDE-configOptions-", StoredValue.ofData data0)] (some "") =
      (BoardsDataStore.Data.EMPTY,
        [(".arduinoIDE-configOptions-", StoredValue.ofData data0)]) ∧
    data0 ≠ BoardsDataStore.Data.EMPTY := by
  refine ⟨rfl, rfl, by decide⟩

/-- Claim C7 (amended): `appendConfigToFqbn` answers `undefined` exactly when
its FQBN argument is undefined or the empty string; for every nonempty FQBN
it answers the FQBN decorated, via the `decorate` helper, with the config
options of the data obtained from `getData` for that FQBN. -/
theorem appendConfigToFqbn_spec
    (decorate : String → List ConfigOption → String)
    (loadBoardDetails : String → Option BoardDetails) (st : Storage) :
    (BoardsDataStore.appendConfigToFqbn decorate loadBoardDetails st none =
      (none, st)) ∧
    (∀ f, f.isEmpty = true →
      BoardsDataStore.appendConfigToFqbn decorate loadBoardDetails st
        (some f) = (none, st)) ∧
    (∀ f, f.isEmpty = false →
      BoardsDataStore.appendConfigToFqbn decorate loadBoardDetails st
        (some f) =
        (some (decorate f
            (BoardsDataStore.getData loadBoardDetails st
              (some f)).1.configOptions),
          (BoardsDataStore.getData loadBoardDetails st (some f)).2)) ∧
    (∀ fqbn,
      (BoardsDataStore.appendConfigToFqbn decorate loadBoardDetails st
          fqbn).1 = none ↔
        fqbn = none ∨ fqbn = some "") := by
  refine ⟨rfl, ?_, ?_, ?_⟩
  · intro f hfe
    simp [BoardsDataStore.appendConfigToFqbn, hfe]
  · intro f hfe
    simp [BoardsDataStore.appendConfigToFqbn, hfe]
  · intro fqbn
    cases fqbn with
    | none => simp [BoardsDataStore.appendConfigToFqbn]
    | some f =>
      cases hfe : f.isEmpty with
      | true =>
        have : f = "" := (String.isEmpty_iff f).mp hfe
        subst this
        simp [BoardsDataStore.appendConfigToFqbn, hfe]
      | false =>
        have hne : f ≠ "" := by
          intro hcontra
          subst hcontra
          exact Bool.noConfusion hfe
        simp [BoardsDataStore.appendConfigToFqbn, hfe, hne]

/-- Claim C7 witness: for the fixture FQBN the decorated FQBN is answered,
built from the config options of the data obtained from `getData`. -/
theorem appendConfigToFqbn_spec_witness :
    BoardsDataStore.appendConfigToFqbn (fun f _ => f)
        (fun _ => some details0) [] (some "a:b:c") =
      (some "a:b:c",
        (BoardsDataStore.getData (fun _ => some details0) []
          (some "a:b:c")).2) :=
  (appendConfigToFqbn_spec (fun f _ => f) (fun _ => some details0) []).2.2.1
    "a:b:c" rfl

/-- Claim C7 counterexample: the defined but empty FQBN is answered with
`undefined`, refuting that `undefined` is answered only for an undefined
argument. -/
theorem appendConfigToFqbn_spec_cex :
    (BoardsDataStore.appendConfigToFqbn (fun f _ => f) (fun _ => none) []
        (some "")).1 = none ∧ (some "" : Option String) ≠ none :=
  ⟨rfl, by simp⟩

/-- Claim C8 (amended): the entry created from board details copies the
details' config options and programmers; its selected programmer is present
exactly when the default programmer id is defined, nonempty and carried by
some programmer of the list, and is then the first such member. -/
theorem createDataStoreEntry_spec (details : BoardDetails) :
    (createDataStoreEntry details).configOptions = details.configOptions ∧
    (createDataStoreEntry details).programmers = details.programmers ∧
    (∀ i, details.defaultProgrammerId = some i → i.isEmpty = false →
      (createDataStoreEntry details).selectedProgrammer =
        details.programmers.find? (fun p => p.id == i)) ∧
    (details.defaultProgrammerId = none →
      (createDataStoreEntry details).selectedProgrammer = none) ∧
    (∀ i, details.defaultProgrammerId = some i → i.isEmpty = true →
      (createDataStoreEntry details).selectedProgrammer = none) ∧
    ((createDataStoreEntry details).selectedProgrammer.isSome = true ↔
      ∃ i, details.defaultProgrammerId = some i ∧ i.isEmpty = false ∧
        ∃ p, p ∈ details.programmers ∧ p.id = i) := by
  refine ⟨rfl, rfl, ?_, ?_, ?_, ?_⟩
  · intro i hi hie
    simp [createDataStoreEntry, findDefaultProgrammer, hi, hie]
  · intro hi
    simp [createDataStoreEntry, findDefaultProgrammer, hi]
  · intro i hi hie
    simp [createDataStoreEntry, findDefaultProgrammer, hi, hie]
  · cases hi : details.defaultProgrammerId with
    | none => simp [createDataStoreEntry, findDefaultProgrammer, hi]
    | some i =>
      cases hie : i.isEmpty with
      | true => simp [createDataStoreEntry, findDefaultProgrammer, hi, hie]
      | false =>
        simp [createDataStoreEntry, findDefaultProgrammer, hi, hie,
          List.find?_isSome, beq_iff_eq]

/-- Claim C8 witness: the fixture details carry the nonempty default
programmer id `p1`, so the created entry selects the first programmer with
that id. -/
theorem createDataStoreEntry_spec_witness :
    (createDataStoreEntry details0).selectedProgrammer =
      details0.programmers.find? (fun p => p.id == "p1") :=
  (createDataStoreEntry_spec details0).2.2.1 "p1" rfl rfl

/-- Board details with the defined but empty default programmer id and a
programmer carrying the empty id. -/
def detailsEmptyId : BoardDetails :=
  ⟨"x:y:z", [], [], [⟨"", "NoName", "plat"⟩], some "", "0", "0", []⟩

/-- Claim C8 counterexample: the default programmer id is defined (the empty
string) and a programmer of the list carries exactly that id, yet the created
entry has no selected programmer, because the falsy check of
`findDefaultProgrammer` also rejects the empty id. -/
theorem createDataStoreEntry_spec_cex :
    (createDataStoreEntry detailsEmptyId).selectedProgrammer = none ∧
    detailsEmptyId.defaultProgrammerId = some "" ∧
    (⟨"", "NoName", "plat"⟩ : Programmer) ∈ detailsEmptyId.programmers ∧
    (⟨"", "NoName", "plat"⟩ : Programmer).id = "" := by
  refine ⟨rfl, rfl, ?_, rfl⟩
  simp [detailsEmptyId]

/-- A storage holding the fixture data under the storage key of the fixture
FQBN. -/
def storage1 : Storage :=
  [(BoardsDataStore.getStorageKey "a:b:c", StoredValue.ofData data0)]

/-- Claim C5 (amended): `selectProgrammer` answers `true` — persisting a data
entry whose selected programmer is the given programmer and firing a change
event for the FQBN — exactly when the given programmer is a member, under
`Programmer.equals`, of the programmers of the data read for that FQBN; when
it is not a member it answers `false`, fires no change event and leaves the
storage in the state the embedded `getData` read left it in (so the only
possible write is the cache fill of that read). -/
theorem selectProgrammer_spec
    (loadBoardDetails : String → Option BoardDetails) (st : Storage)
    (fqbn : String) (programmer : Programmer)
    (d : BoardsDataStore.Data) (st1 : Storage)
    (hget : BoardsDataStore.getData loadBoardDetails st (some fqbn) =
      (d, st1)) :
    ((BoardsDataStore.selectProgrammer loadBoardDetails st fqbn
        programmer).1 = true ↔
      ∃ q, q ∈ d.programmers ∧ Programmer.equals programmer q = true) ∧
    ((d.programmers.find?
        (fun q => Programmer.equals programmer q)).isSome = true →
      BoardsDataStore.selectProgrammer loadBoardDetails st fqbn programmer =
        (true,
          BoardsDataStore.setData st1 fqbn
            ⟨d.configOptions, d.programmers, some programmer,
              d.defaultProgrammerId⟩,
          [⟨fqbn, ⟨d.configOptions, d.programmers, some programmer,
            d.defaultProgrammerId⟩⟩])) ∧
    ((d.programmers.find?
        (fun q => Programmer.equals programmer q)).isSome = false →
      BoardsDataStore.selectProgrammer loadBoardDetails st fqbn programmer =
        (false, st1, [])) := by
  refine ⟨?_, ?_, ?_⟩
  · cases hfind : (d.programmers.find?
        (fun q => Programmer.equals programmer q)).isSome with
    | true =>
      constructor
      · intro _
        simpa using List.find?_isSome.mp hfind
      · intro _
        simp [BoardsDataStore.selectProgrammer, hget, hfind]
    | false =>
      constructor
      · intro htrue
        simp [BoardsDataStore.selectProgrammer, hget, hfind] at htrue
      · intro hex
        exfalso
        have hs : (d.programmers.find?
            (fun q => Programmer.equals programmer q)).isSome = true := by
          rw [List.find?_isSome]
          simpa using hex
        rw [hfind] at hs
        exact Bool.noConfusion hs
  · intro hfind
    simp [BoardsDataStore.selectProgrammer, hget, hfind]
  · intro hfind
    simp [BoardsDataStore.selectProgrammer, hget, hfind]

/-- Claim C5 witness: selecting the member programmer `p2` on the stored
fixture data succeeds, persists the entry with `p2` selected and fires the
change event. -/
theorem selectProgrammer_spec_witness :
    BoardsDataStore.selectProgrammer (fun _ => none) storage1 "a:b:c" p2 =
      (true,
        BoardsDataStore.setData storage1 "a:b:c"
          ⟨data0.configOptions, data0.programmers, some p2,
            data0.defaultProgrammerId⟩,
        [⟨"a:b:c", ⟨data0.configOptions, data0.programmers, some p2,
          data0.defaultProgrammerId⟩⟩]) :=
  (selectProgrammer_spec (fun _ => none) storage1 "a:b:c" p2 data0 storage1
    rfl).2.1 rfl

/-- Claim C5 counterexample: selecting the non-member programmer `p3` with an
empty storage answers `false` and fires no event, yet the stored data for the
FQBN did change — the `getData` read inside `selectProgrammer` cache-filled
the freshly loaded entry — refuting that the stored data is unchanged. -/
theorem selectProgrammer_spec_cex :
    (BoardsDataStore.selectProgrammer (fun _ => some details0) [] "a:b:c"
      p3).1 = false ∧
    (BoardsDataStore.selectProgrammer (fun _ => some details0) [] "a:b:c"
      p3).2.2 = [] ∧
    Storage.get
        (BoardsDataStore.selectProgrammer (fun _ => some details0) [] "a:b:c"
          p3).2.1 (BoardsDataStore.getStorageKey "a:b:c") =
      some (StoredValue.ofData (createDataStoreEntry details0)) ∧
    Storage.get ([] : Storage) (BoardsDataStore.getStorageKey "a:b:c") =
      none :=
  ⟨rfl, rfl, rfl, rfl⟩

/-- Claim C9: on its success path `selectProgrammer` changes only the
selected-programmer field: the persisted entry keeps the config options,
programmers and default programmer id of the data read for the FQBN. -/
theorem selectProgrammer_frame
    (loadBoardDetails : String → Option BoardDetails) (st : Storage)
    (fqbn : String) (programmer : Programmer)
    (d : BoardsDataStore.Data) (st1 : Storage)
    (hget : BoardsDataStore.getData loadBoardDetails st (some fqbn) =
      (d, st1))
    (h : (BoardsDataStore.selectProgrammer loadBoardDetails st fqbn
      programmer).1 = true) :
    ∃ d2 : BoardsDataStore.Data,
      BoardsDataStore.selectProgrammer loadBoardDetails st fqbn programmer =
        (true, BoardsDataStore.setData st1 fqbn d2, [⟨fqbn, d2⟩]) ∧
      d2.configOptions = d.configOptions ∧
      d2.programmers = d.programmers ∧
      d2.defaultProgrammerId = d.defaultProgrammerId ∧
      d2.selectedProgrammer = some programmer := by
  cases hfind : (d.programmers.find?
      (fun q => Programmer.equals programmer q)).isSome with
  | false =>
    exfalso
    simp [BoardsDataStore.selectProgrammer, hget, hfind] at h
  | true =>
    refine ⟨⟨d.configOptions, d.programmers, some programmer,
      d.defaultProgrammerId⟩, ?_, rfl, rfl, rfl, rfl⟩
    simp [BoardsDataStore.selectProgrammer, hget, hfind]

/-- Claim C9 witness: the fixture success scenario, with the persisted entry
agreeing with the stored fixture data on every field but the selected
programmer. -/
theorem selectProgrammer_frame_witness :
    ∃ d2 : BoardsDataStore.Data,
      BoardsDataStore.selectProgrammer (fun _ => none) storage1 "a:b:c" p2 =
        (true, BoardsDataStore.setData storage1 "a:b:c" d2, [⟨"a:b:c", d2⟩]) ∧
      d2.configOptions = data0.configOptions ∧
      d2.programmers = data0.programmers ∧
      d2.defaultProgrammerId = data0.defaultProgrammerId ∧
      d2.selectedProgrammer = some p2 :=
  selectProgrammer_frame (fun _ => none) storage1 "a:b:c" p2 data0 storage1
    rfl rfl

/-- The first-match update finds nothing exactly when `configOptions.find`
finds no option with the given name. -/
theorem updateFirstConfigOption_eq_none (option selectedValue : String)
    (cs : List ConfigOption) :
    updateFirstConfigOption option selectedValue cs = none ↔
      cs.find? (fun c => c.option == option) = none := by
  induction cs with
  | nil => simp [updateFirstConfigOption]
  | cons c rest ih =>
    cases hc : c.option == option with
    | true => simp [updateFirstConfigOption, List.find?, hc]
    | false => simp [updateFirstConfigOption, List.find?, hc, ih]

/-- When `configOptions.find` finds an option, the first-match update yields
a list in which that option is replaced by its updated copy — found again at
the same name — and the boolean reports whether one of its values matches. -/
theorem updateFirstConfigOption_eq_some (option selectedValue : String)
    (cs : List ConfigOption) (c : ConfigOption)
    (h : cs.find? (fun c2 => c2.option == option) = some c) :
    ∃ l, updateFirstConfigOption option selectedValue cs =
        some (l, c.values.any (fun v => v.value == selectedValue)) ∧
      l.find? (fun c2 => c2.option == option) =
        some ⟨c.option, c.label,
          (updateConfigValues selectedValue c.values).1⟩ := by
  induction cs with
  | nil => simp [List.find?] at h
  | cons c0 rest ih =>
    cases hc : c0.option == option with
    | true =>
      simp only [List.find?, hc] at h
      have hcc : c0 = c := by injection h
      subst hcc
      refine ⟨⟨c0.option, c0.label,
        (updateConfigValues selectedValue c0.values).1⟩ :: rest, ?_, ?_⟩
      · simp [updateFirstConfigOption, hc, updateConfigValues]
      · simp [List.find?, hc]
    | false =>
      simp only [List.find?, hc] at h
      obtain ⟨l, hl1, hl2⟩ := ih h
      refine ⟨c0 :: l, ?_, ?_⟩
      · simp [updateFirstConfigOption, hc, hl1]
      · simp [List.find?, hc, hl2]

/-- Claim C6 (amended): `selectConfigOption` answers `true` — persisting the
data in which exactly the values of the found option equal to the selected
value are selected and every other value of that option is deselected, and
firing a change event — exactly when the data read for the FQBN contains a
config option with the given name one of whose values equals the selected
value; otherwise it answers `false`, fires no change event and leaves the
storage in the state the embedded `getData` read left it in (so the only
possible write is the cache fill of that read). -/
theorem selectConfigOption_spec
    (loadBoardDetails : String → Option BoardDetails) (st : Storage)
    (fqbn option selectedValue : String)
    (d : BoardsDataStore.Data) (st1 : Storage)
    (hget : BoardsDataStore.getData loadBoardDetails st (some fqbn) =
      (d, st1)) :
    (d.configOptions.find? (fun c => c.option == option) = none →
      BoardsDataStore.selectConfigOption loadBoardDetails st fqbn option
        selectedValue = (false, st1, [])) ∧
    (∀ c, d.configOptions.find? (fun c2 => c2.option == option) = some c →
      c.values.any (fun v => v.value == selectedValue) = false →
      BoardsDataStore.selectConfigOption loadBoardDetails st fqbn option
        selectedValue = (false, st1, [])) ∧
    (∀ c, d.configOptions.find? (fun c2 => c2.option == option) = some c →
      c.values.any (fun v => v.value == selectedValue) = true →
      ∃ opts, updateFirstConfigOption option selectedValue d.configOptions =
          some (opts, true) ∧
        BoardsDataStore.selectConfigOption loadBoardDetails st fqbn option
          selectedValue =
          (true,
            BoardsDataStore.setData st1 fqbn
              ⟨opts, d.programmers, d.selectedProgrammer,
                d.defaultProgrammerId⟩,
            [⟨fqbn, ⟨opts, d.programmers, d.selectedProgrammer,
              d.defaultProgrammerId⟩⟩]) ∧
        opts.find? (fun c2 => c2.option == option) =
          some ⟨c.option, c.label, c.values.map
            (fun v => ⟨v.value, v.label, v.value == selectedValue⟩)⟩) ∧
    (∀ vs : List ConfigValue, (updateConfigValues selectedValue vs).1 =
      vs.map (fun v => ⟨v.value, v.label, v.value == selectedValue⟩)) := by
  have hmap : ∀ vs : List ConfigValue, (updateConfigValues selectedValue vs).1 =
      vs.map (fun v => ⟨v.value, v.label, v.value == selectedValue⟩) := by
    intro vs
    simp only [updateConfigValues]
    apply List.map_congr_left
    intro v _
    cases hv : v.value == selectedValue <;> simp [hv]
  refine ⟨?_, ?_, ?_, hmap⟩
  · intro hfind
    have hnone :
        updateFirstConfigOption option selectedValue d.configOptions =
          none :=
      (updateFirstConfigOption_eq_none option selectedValue
        d.configOptions).mpr hfind
    simp [BoardsDataStore.selectConfigOption, hget, hnone]
  · intro c hfind hany
    obtain ⟨l, hl1, hl2⟩ :=
      updateFirstConfigOption_eq_some option selectedValue d.configOptions c
        hfind
    rw [hany] at hl1
    simp [BoardsDataStore.selectConfigOption, hget, hl1]
  · intro c hfind hany
    obtain ⟨l, hl1, hl2⟩ :=
      updateFirstConfigOption_eq_some option selectedValue d.configOptions c
        hfind
    rw [hany] at hl1
    refine ⟨l, hl1, ?_, ?_⟩
    · simp [BoardsDataStore.selectConfigOption, hget, hl1]
    · rw [hl2, hmap]

/-- The processor config option used by the `selectConfigOption` fixtures. -/
def cpuOption : ConfigOption :=
  ⟨"cpu", "Processor",
    [⟨"atmega328", "ATmega328P", true⟩, ⟨"atmega168", "ATmega168", false⟩]⟩

/-- Stored data carrying the processor config option. -/
def dataCfg : BoardsDataStore.Data := ⟨[cpuOption], [p1, p2], some p1, some "p1"⟩

/-- A storage holding `dataCfg` under the storage key of the fixture FQBN. -/
def storageCfg : Storage :=
  [(BoardsDataStore.getStorageKey "a:b:c", StoredValue.ofData dataCfg)]

/-- Claim C6 witness: selecting the matching value `atmega168` of the stored
processor option succeeds, persists the data with exactly that value
selected and the other value deselected, and fires the change event. -/
theorem selectConfigOption_spec_witness :
    ∃ opts, updateFirstConfigOption "cpu" "atmega168" dataCfg.configOptions =
        some (opts, true) ∧
      BoardsDataStore.selectConfigOption (fun _ => none) storageCfg "a:b:c"
        "cpu" "atmega168" =
        (true,
          BoardsDataStore.setData storageCfg "a:b:c"
            ⟨opts, dataCfg.programmers, dataCfg.selectedProgrammer,
              dataCfg.defaultProgrammerId⟩,
          [⟨"a:b:c", ⟨opts, dataCfg.programmers, dataCfg.selectedProgrammer,
            dataCfg.defaultProgrammerId⟩⟩]) ∧
      opts.find? (fun c2 => c2.option == "cpu") =
        some ⟨cpuOption.option, cpuOption.label, cpuOption.values.map
          (fun v => ⟨v.value, v.label, v.value == "atmega168"⟩)⟩ :=
  (selectConfigOption_spec (fun _ => none) storageCfg "a:b:c" "cpu"
    "atmega168" dataCfg storageCfg rfl).2.2.1 cpuOption rfl rfl

/-- Claim C6 counterexample: selecting an option that does not exist in the
freshly loaded entry answers `false` and fires no event, yet something was
persisted — the `getData` read inside `selectConfigOption` cache-filled the
entry into the empty storage — refuting that nothing is persisted. -/
theorem selectConfigOption_spec_cex :
    (BoardsDataStore.selectConfigOption (fun _ => some details0) [] "a:b:c"
      "cpu" "atmega168").1 = false ∧
    (BoardsDataStore.selectConfigOption (fun _ => some details0) [] "a:b:c"
      "cpu" "atmega168").2.2 = [] ∧
    Storage.get
        (BoardsDataStore.selectConfigOption (fun _ => some details0) []
          "a:b:c" "cpu" "atmega168").2.1
        (BoardsDataStore.getStorageKey "a:b:c") =
      some (StoredValue.ofData (createDataStoreEntry details0)) ∧
    Storage.get ([] : Storage) (BoardsDataStore.getStorageKey "a:b:c") =
      none :=
  ⟨rfl, rfl, rfl, rfl⟩
